import Mathlib

/-!
Verification of the background scheduler / hot-swap core of the
LiveSplit asr-debugger (`src/main.rs`) against its specification.

The program is shallowly embedded: durations are `Nat` nanoseconds
(`std::time::Duration` values are non-negative), the `f64` moving
average is modelled over `ℚ` with the exact decay coefficients from the
source, the hdrhistogram is modelled as the list of recorded samples,
and the opaque `AutoSplitter` collaborator (an external crate) is
modelled by the observations a single iteration extracts from it.
-/

namespace AsrDebugger

/-- What one scheduler iteration observes from the locked auto splitter
(the `AutoSplitter` collaborator is external to this repository, so one
iteration's interaction with it is abstracted into the values the code
in `runtime_thread` reads off it): the result of `update()`, the
measured wall-clock duration of the tick in nanoseconds, the memory
usage, the handle count, the reported tick rate in nanoseconds, and the
attached processes as (pid, path) pairs. -/
structure UnitObs where
  res : Except String Unit
  timeOfTick : Nat
  memoryUsage : Nat
  handles : Nat
  tickRate : Nat
  processes : List (String × String)

/-- The three tick-latency statistics of `SharedState`: `slowest_tick`,
`avg_tick_secs` and the `tick_times` histogram (modelled as the list of
recorded nanosecond samples). -/
structure Stats where
  slowestTick : Nat
  avgTickSecs : ℚ
  tickTimes : List Nat
  deriving DecidableEq

/-- The state the scheduler loop `runtime_thread` reads and writes:
the shared statistics, the published tick rate, memory usage, handle
count and process list of `SharedState`, the log lines of the
`DebuggerTimer`, and the loop-local `next_tick` anchor (an `Instant`,
modelled as nanoseconds since an arbitrary origin). -/
structure SchedState where
  stats : Stats
  tickRate : Nat
  memoryUsage : Nat
  handles : Nat
  processes : List (String × String)
  logs : List String
  nextTick : Nat

/-- Nanosecond value of `Duration::from_secs(1) / 10`, the pacing used
when no auto splitter is loaded ("Tick at 10 Hz when no runtime is
loaded."). -/
def idleTickRate : Nat := 1000000000 / 10

/-- The `slowest_tick` ratchet from `runtime_thread`:
`if time_of_tick > *slowest_tick { *slowest_tick = time_of_tick }`. -/
def recordSlowest (slowest timeOfTick : Nat) : Nat :=
  if slowest < timeOfTick then timeOfTick else slowest

/-- The moving-average update from `runtime_thread`:
`0.999 * avg + 0.001 * time_of_tick.as_secs_f64()` (the `f64`
arithmetic is modelled exactly over `ℚ`). -/
def recordAvg (avg secs : ℚ) : ℚ := 999 / 1000 * avg + 1 / 1000 * secs

/-- Value of `Duration::as_secs_f64` on a nanosecond count, over `ℚ`. -/
def nsToSecs (n : Nat) : ℚ := (n : ℚ) / 1000000000

/-- The log message pushed by `runtime_thread` when `update()` returns
an error: `format!("{:?}", e.context("Failed executing the auto
splitter."))` (the anyhow `Debug` rendering of the wrapped error is
abstracted as string concatenation). -/
def tickErrorMsg (e : String) : String :=
  "Failed executing the auto splitter. " ++ e

/-- One iteration of the scheduler loop `runtime_thread`, for a given
content of the `auto_splitter` slot (`none` when no unit is installed,
otherwise the observations extracted from the installed unit) and the
`Instant::now()` value `now` read after the tick. Mirrors the loop body:
with a unit present, it refills the process list, publishes memory
usage, handle count and tick rate, ratchets `slowest_tick`, records the
tick time into the histogram and the moving average, and appends one log
entry if `update()` failed; with no unit, it only clears the process
list. Afterwards `next_tick += tick_rate`, and if that wake-up was
already missed (`checked_duration_since` returns `None`, i.e. the
wake-up lies strictly in the past) the anchor resets to `now`. -/
def schedIter (slot : Option UnitObs) (now : Nat) (s : SchedState) : SchedState :=
  let step : SchedState × Nat :=
    match slot with
    | some o =>
      ({ s with
          processes := o.processes
          memoryUsage := o.memoryUsage
          handles := o.handles
          stats :=
            { slowestTick := recordSlowest s.stats.slowestTick o.timeOfTick
              avgTickSecs := recordAvg s.stats.avgTickSecs (nsToSecs o.timeOfTick)
              tickTimes := s.stats.tickTimes ++ [o.timeOfTick] }
          tickRate := o.tickRate
          logs := s.logs ++
            match o.res with
            | .error e => [tickErrorMsg e]
            | .ok _ => [] },
        o.tickRate)
    | none => ({ s with processes := [] }, idleTickRate)
  let s1 := step.1
  let nt := s1.nextTick + step.2
  { s1 with nextTick := if now ≤ nt then nt else now }

/-- Running the scheduler loop over a finite trace of iterations, each
given by the slot content it observes and the `now` it reads. -/
def runLoop (inputs : List (Option UnitObs × Nat)) (s : SchedState) : SchedState :=
  inputs.foldl (fun acc x => schedIter x.1 x.2 acc) s

/-- The tick rate a single iteration uses for pacing: the installed
unit's reported rate, or the 10 Hz idle rate with an empty slot. -/
def iterTickRate : Option UnitObs → Nat
  | some o => o.tickRate
  | none => idleTickRate

/-- The log entry (if any) that one iteration input produces: a unit
whose `update()` errored yields exactly one message, everything else
yields none. -/
def errLogOf (x : Option UnitObs × Nat) : Option String :=
  match x.1 with
  | some o =>
    match o.res with
    | .error e => some (tickErrorMsg e)
    | .ok _ => none
  | none => none

/-- The nanosecond tick durations a trace of iteration inputs feeds
into the recorder (one sample per iteration that has a unit installed). -/
def tickSamples (inputs : List (Option UnitObs × Nat)) : List Nat :=
  inputs.filterMap (fun x => x.1.map (fun o => o.timeOfTick))

/-- Statistics reset performed by `AppState::load` after storing the
new unit: `slowest_tick = ZERO`, `avg_tick_secs = 0.0`,
`tick_times.clear()`. -/
def loadResetStats (_s : Stats) : Stats :=
  { slowestTick := 0, avgTickSecs := 0, tickTimes := [] }

/-- The "Reset" button of the Statistics tab:
`*slowest_tick = Duration::ZERO` — it touches only the maximum. -/
def slowestResetButton (s : Stats) : Stats := { s with slowestTick := 0 }

/-- The "Clear" button of the Performance tab: `histogram.clear()` — it
touches only the histogram. -/
def histogramClearButton (s : Stats) : Stats := { s with tickTimes := [] }

/-- The mean of the modelled histogram (hdrhistogram's `mean()` of an
empty histogram is 0). -/
def histMean (l : List Nat) : ℚ :=
  if l = [] then 0 else (l.sum : ℚ) / l.length

/-- Events observable during the slot replacement performed by
`AppState::load`: a failed `try_lock()` attempt, an acquisition of the
unit's lock, a cooperative `interrupt()`, and the atomic
`auto_splitter.store(...)` of the new slot content. -/
inductive REvent
  | tryFail
  | lockAcquired
  | interrupt
  | store
  deriving DecidableEq

/-- Model of `SharedState::try_lock`, instrumented with its event
trace: up to `fuel` attempts starting at attempt index `i`, where
`avail i` says whether the unit's `try_lock()` succeeds at attempt `i`
(the source performs exactly 100 attempts at 1 ms spacing). Returns the
trace of attempts — one failure event per failed attempt, an
acquisition event on success (the returned guard is dropped right away
by the caller) — together with the index of the successful attempt, if
any. -/
def tryLockTrace (avail : Nat → Bool) : Nat → Nat → List REvent × Option Nat
  | 0, _ => ([], none)
  | fuel + 1, i =>
    if avail i then ([.lockAcquired], some i)
    else
      let r := tryLockTrace avail fuel (i + 1)
      (.tryFail :: r.1, r.2)

/-- The attempt index at which `SharedState::try_lock` succeeds within
its 100-attempt bound, if any; `none` models `try_lock` returning
`None`. -/
def tryLockIdx (avail : Nat → Bool) : Option Nat := (tryLockTrace avail 100 0).2

/-- Whether `SharedState::kill_auto_splitter_if_it_doesnt_react`
invokes `interrupt()` on the installed unit: with an empty slot it
returns immediately, otherwise it interrupts exactly when
`Self::try_lock(auto_splitter).is_none()`. -/
def killInterrupts : Option (Nat → Bool) → Bool
  | none => false
  | some avail => (tryLockIdx avail).isNone

/-- The event trace of `kill_auto_splitter_if_it_doesnt_react`: the
`try_lock` attempts, then an interrupt exactly when the lock was never
acquired within the bound. -/
def killTrace : Option (Nat → Bool) → List REvent
  | none => []
  | some avail =>
    let r := tryLockTrace avail 100 0
    r.1 ++
      match r.2 with
      | some _ => []
      | none => [.interrupt]

/-- The event trace of the slot replacement in `AppState::load`:
`self.shared_state.kill_auto_splitter_if_it_doesnt_react()` followed
directly by `self.shared_state.auto_splitter.store(new_auto_splitter)`. -/
def replaceTrace (slot : Option (Nat → Bool)) : List REvent :=
  killTrace slot ++ [.store]

/-- A unit whose lock is never available — a tick that never returns. -/
def stuckUnit : Nat → Bool := fun _ => false

/-- A unit whose lock is available on the very first attempt. -/
def freeUnit : Nat → Bool := fun _ => true

/-- The settings map type of the external engine
(`livesplit_auto_splitting::settings::Map`), modelled as an association
list. -/
abbrev SMap := List (String × String)

/-- Modelled from the external collaborator's interface: `settings::
Map::insert`, producing the map with `key` bound to `value`. -/
def insertS (m : SMap) (key value : String) : SMap :=
  match m with
  | [] => [(key, value)]
  | (k, v) :: rest =>
    if k = key then (key, value) :: rest else (k, v) :: insertS rest key value

/-- The settings compare-and-swap retry loop that appears verbatim in
`TabViewer::ui` (bool widgets and choice widgets) and in
`Debugger::update` (file-selection widgets): `loop { let old =
runtime.settings_map(); let mut new = old.clone(); new.insert(key,
value); if runtime.set_settings_map_if_unchanged(&old, new) { break } }`.
Here `maps i` is the settings map read from the captured unit at
attempt `i` and `cas i` says whether that attempt's CAS succeeds (it
fails when a concurrent writer changed the map in between). The loop's
only exit is a successful CAS; its body contains no unit-identity
check and no retry ceiling. `fuel` is the number of iterations we
unroll of the (unbounded) source loop, counting from attempt `i`. -/
def casAttempts (maps : Nat → SMap) (cas : Nat → Bool) (key value : String) :
    Nat → Nat → Option SMap
  | 0, _ => none
  | fuel + 1, i =>
    if cas i then some (insertS (maps i) key value)
    else casAttempts maps cas key value fuel (i + 1)

/-- The settings update loop unrolled `fuel` iterations from its start. -/
def updateSetting (maps : Nat → SMap) (cas : Nat → Bool) (key value : String)
    (fuel : Nat) : Option SMap :=
  casAttempts maps cas key value fuel 0

/-- The settings update loop terminates when some finite unrolling of
it reaches the `break`. -/
def updateSettingTerminates (maps : Nat → SMap) (cas : Nat → Bool)
    (key value : String) : Prop :=
  ∃ fuel, (updateSetting maps cas key value fuel).isSome

/-- The `TimerState` type of the livesplit-auto-splitting crate. -/
inductive TimerState
  | notRunning
  | running
  | paused
  | ended
  deriving DecidableEq

/-- The `GameTimeState` type of `main.rs`. -/
inductive GameTimeState
  | notInitialized
  | paused
  | running
  deriving DecidableEq

/-- The `DebuggerTimerState` struct of `main.rs`. Game time is an
integer nanosecond count (`time::Duration` is signed). -/
structure DebuggerTimerState where
  timer_state : TimerState
  game_time : Int
  game_time_state : GameTimeState
  split_index : Nat
  vars : List (String × String)
  logs : List String
  last_logs_len : Nat

/-- Method `DebuggerTimerState::reset`: timer state to `NotRunning`,
split index to 0, game time to zero, game-time state to
`NotInitialized`, variables cleared; the log is not touched. -/
def DebuggerTimerState.reset (t : DebuggerTimerState) : DebuggerTimerState :=
  { t with
      timer_state := .notRunning
      split_index := 0
      game_time := 0
      game_time_state := .notInitialized
      vars := [] }

/-- Method `DebuggerTimerState::clear`, which just calls `reset`. -/
def DebuggerTimerState.clear (t : DebuggerTimerState) : DebuggerTimerState :=
  t.reset

/-- The `Load` enum of `main.rs`. -/
inductive Load
  | file (p : String)
  | reload
  | restart

/-- The success message `AppState::load` pushes to the log. -/
def loadMsg : Load → String
  | .file _ => "Auto splitter loaded."
  | .reload => "Auto splitter reloaded."
  | .restart => "Auto splitter restarted."

/-- An opaque compiled module (`CompiledAutoSplitter` of the external
engine). -/
structure ModuleM where
  ident : Nat
  deriving DecidableEq

/-- An installed auto splitter as far as `AppState::load` observes it:
its current settings map (`r.settings_map()`). -/
structure UnitM where
  settingsMap : SMap
  deriving DecidableEq

/-- The external outcomes a run of `AppState::load` depends on: the
result of reading and compiling the wasm file
(`fs::read ... runtime.compile`), and the result of
`module.instantiate(timer, settings_map, script_path)` as a function of
the settings map handed to it (the timer, module and script path
arguments are fixed throughout one load). Error values stand for the
formatted messages the code pushes to the log. -/
structure LoadEnv where
  compile : Except String ModuleM
  instantiate : Option SMap → Except String UnitM

/-- The control-side state `AppState::load` reads and writes: the
selected path, the compiled module, the slot content
(`shared_state.auto_splitter`), the shared statistics and the debugger
timer state. The purely presentational fields of `AppState` (dialogs,
modification times, the optimize flag, the script path — the latter
folded into `LoadEnv.instantiate`) are not modelled. -/
structure AppState where
  path : Option String
  module : Option ModuleM
  installed : Option UnitM
  stats : Stats
  timer : DebuggerTimerState

/-- The settings map handed to `instantiate` by `AppState::load`
(lines 877–886): a `File` load passes `None`, while `Reload` and
`Restart` pass the settings-map snapshot taken from the currently
installed (superseded) unit, if any. -/
def settingsArg (load : Load) (a : AppState) : Option SMap :=
  match load with
  | .file _ => none
  | _ => a.installed.map (fun u => u.settingsMap)

/-- Replacing the instantiate capability of an environment by one that
ignores its argument and always instantiates with the fixed settings
map `sm`. Used to state that `AppState::load` consults `instantiate`
only at `settingsArg load a`. -/
def pinInstantiate (env : LoadEnv) (sm : Option SMap) : LoadEnv :=
  { compile := env.compile, instantiate := fun _ => env.instantiate sm }

/-- The compile outcome of `AppState::load`: the new `self.module`, the
error log lines pushed, and whether loading still counts as succeeded. -/
def compileOutcome (env : LoadEnv) : Option ModuleM × List String × Bool :=
  match env.compile with
  | .ok m => (some m, [], true)
  | .error e => (none, [e], false)

/-- The compile step of `AppState::load` (lines 890–911): compiling
happens only for `File` and `Reload` loads with a known path
(`if let (Load::File(_) | Load::Reload, Some(path)) = (&load,
&self.path)`); otherwise the module is kept as is. -/
def compileStep (env : LoadEnv) (load : Load) (path1 : Option String)
    (module0 : Option ModuleM) : Option ModuleM × List String × Bool :=
  match load, path1 with
  | .file _, some _ => compileOutcome env
  | .reload, some _ => compileOutcome env
  | _, _ => (module0, [], true)

/-- The instantiation step of `AppState::load` (lines 913–936): with no
module there is no new unit; otherwise the module is instantiated with
the chosen settings map, a failure leaving the slot empty and pushing
one error line. -/
def instStep (env : LoadEnv) (sm : Option SMap) (module1 : Option ModuleM)
    (errs : List String) (succ : Bool) : Option UnitM × List String × Bool :=
  match module1 with
  | some _ =>
    match env.instantiate sm with
    | .ok u => (some u, errs, succ)
    | .error e => (none, errs ++ [e], false)
  | none => (none, errs, succ)

/-- The timer effects of `AppState::load` (lines 890–962, in source
order): the error lines from compiling/instantiating are pushed to the
log as they occur; after the store, a `File` load calls `timer.clear()`
(the full reset, which leaves the log untouched), every variant clears
the variables table, and if loading succeeded the result message is
pushed last. -/
def loadTimerEffect (load : Load) (errs : List String) (succ : Bool)
    (t : DebuggerTimerState) : DebuggerTimerState :=
  let t1 := { t with logs := t.logs ++ errs }
  let t2 :=
    match load with
    | .file _ => t1.clear
    | _ => t1
  let t3 := { t2 with vars := [] }
  if succ then { t3 with logs := t3.logs ++ [loadMsg load] } else t3

/-- Model of `AppState::load`: select the settings snapshot, compile
(for `File`/`Reload` with a known path), instantiate, interrupt the old
unit if it does not react (an effect on the old unit only, modelled by
`replaceTrace`), store the new slot content, reset the statistics, and
apply the timer effects. -/
def appLoad (env : LoadEnv) (load : Load) (a : AppState) : AppState :=
  let path1 : Option String :=
    match load with
    | .file p => some p
    | _ => a.path
  let sm := settingsArg load a
  let c := compileStep env load path1 a.module
  let r := instStep env sm c.1 c.2.1 c.2.2
  { path := path1
    module := c.1
    installed := r.1
    stats := loadResetStats a.stats
    timer := loadTimerEffect load r.2.1 r.2.2 a.timer }

/-- Concrete tick observations used by witnesses. -/
def demoObs : UnitObs :=
  { res := .ok (), timeOfTick := 5, memoryUsage := 0, handles := 0,
    tickRate := 1, processes := [] }

/-- A second concrete tick observation, with a smaller duration. -/
def demoObs2 : UnitObs :=
  { res := .error "boom", timeOfTick := 3, memoryUsage := 0, handles := 0,
    tickRate := 1, processes := [] }

/-- A concrete scheduler trace: two ticking iterations around an idle
one. -/
def demoInputs : List (Option UnitObs × Nat) :=
  [(some demoObs, 10), (none, 20), (some demoObs2, 30)]

/-- A concrete scheduler state used by witnesses. -/
def demoSched : SchedState :=
  { stats := { slowestTick := 2, avgTickSecs := 1, tickTimes := [9] },
    tickRate := 0, memoryUsage := 0, handles := 0, processes := [],
    logs := ["old"], nextTick := 0 }

/-- A concrete statistics state with all three statistics nonzero. -/
def stats0 : Stats := { slowestTick := 7, avgTickSecs := 1, tickTimes := [5] }

/-- A concrete installed unit used by witnesses. -/
def demoUnit : UnitM := { settingsMap := [("a", "1")] }

/-- A concrete load environment used by witnesses. -/
def demoEnv : LoadEnv :=
  { compile := .ok { ident := 0 },
    instantiate := fun sm => .ok { settingsMap := sm.getD [] } }

/-- A concrete debugger timer state used by witnesses. -/
def demoTimer : DebuggerTimerState :=
  { timer_state := .running, game_time := 42, game_time_state := .running,
    split_index := 3, vars := [("v", "1")], logs := ["old"],
    last_logs_len := 0 }

/-- A concrete control-side state with an installed unit. -/
def demoApp : AppState :=
  { path := some "x.wasm", module := some { ident := 0 },
    installed := some demoUnit, stats := stats0, timer := demoTimer }

section SchedulerTheorems

/-- Helper: the pacing update of one iteration in closed form. -/
theorem schedIter_nextTick (slot : Option UnitObs) (now : Nat) (s : SchedState) :
    (schedIter slot now s).nextTick =
      (if s.nextTick + iterTickRate slot ≤ now then now
       else s.nextTick + iterTickRate slot) := by
  cases slot <;>
    · simp only [schedIter, iterTickRate]
      split <;> split <;> omega

/-- **C3.** In every scheduler-loop iteration the computed wake-up is
the previous anchor plus the just-reported tick rate (`next_tick +=
tick_rate`); whenever that computed wake-up lies at or before `now`,
the stored anchor equals `now` (at strict overshoot the code resets it,
at exact equality it already equals `now`), and otherwise it is exactly
the computed wake-up; consequently the anchor never lies in the past,
so no burst of catch-up ticks is emitted. -/
theorem scheduler_paces_from_previous_anchor_and_resets_on_overshoot
    (slot : Option UnitObs) (now : Nat) (s : SchedState) :
    ((s.nextTick + iterTickRate slot ≤ now →
        (schedIter slot now s).nextTick = now) ∧
     (now < s.nextTick + iterTickRate slot →
        (schedIter slot now s).nextTick = s.nextTick + iterTickRate slot)) ∧
    now ≤ (schedIter slot now s).nextTick := by
  rw [schedIter_nextTick]
  refine ⟨⟨fun h => by simp [h], fun h => ?_⟩, ?_⟩
  · rw [if_neg (by omega)]
  · split <;> omega

/-- Witness for C3 at a concrete overshoot: with anchor 0, idle rate and
`now` far in the future, the next anchor is `now` itself. -/
theorem scheduler_paces_witness :
    (schedIter none 5000000000
      { stats := { slowestTick := 0, avgTickSecs := 0, tickTimes := [] },
        tickRate := 0, memoryUsage := 0, handles := 0, processes := [],
        logs := [], nextTick := 0 }).nextTick = 5000000000 :=
  (scheduler_paces_from_previous_anchor_and_resets_on_overshoot none 5000000000
      { stats := { slowestTick := 0, avgTickSecs := 0, tickTimes := [] },
        tickRate := 0, memoryUsage := 0, handles := 0, processes := [],
        logs := [], nextTick := 0 }).1.1 (by decide)

/-- Helper: the per-iteration log effect. -/
theorem schedIter_logs (slot : Option UnitObs) (now : Nat) (s : SchedState) :
    (schedIter slot now s).logs = s.logs ++ (errLogOf (slot, now)).toList := by
  cases slot with
  | none => simp [schedIter, errLogOf]
  | some o => cases h : o.res <;> simp [schedIter, errLogOf, h]

/-- **C7.** Over any finite trace of scheduler iterations, the log grows
by exactly one human-readable entry per iteration whose `tick()`
(`update()`) returned an error and by nothing else; in particular every
iteration after a failing one is still processed by the same fold, so a
tick error never halts subsequent ticking and is never fatal to the
scheduler loop. -/
theorem tick_error_logs_once_and_loop_continues
    (inputs : List (Option UnitObs × Nat)) (s : SchedState) :
    (runLoop inputs s).logs = s.logs ++ inputs.filterMap errLogOf := by
  induction inputs generalizing s with
  | nil => simp [runLoop]
  | cons x xs ih =>
    have hx : runLoop (x :: xs) s = runLoop xs (schedIter x.1 x.2 s) := rfl
    rw [hx, ih, schedIter_logs x.1 x.2 s]
    cases h : errLogOf (x.1, x.2) <;>
      simp [List.filterMap_cons, h, List.append_assoc]

/-- **C8.** In every scheduler-loop iteration with an empty slot, the
loop performs no unit work — the statistics, the published tick rate,
memory usage, handle count and the log are all left untouched and only
the process list is cleared — and it paces itself at the fixed idle
cadence `idleTickRate` = `Duration::from_secs(1) / 10` = 100 ms. -/
theorem empty_slot_idles_at_10hz (now : Nat) (s : SchedState) :
    schedIter none now s =
      { s with
          processes := [],
          nextTick :=
            if now ≤ s.nextTick + idleTickRate then s.nextTick + idleTickRate
            else now } ∧
    idleTickRate = 100000000 := by
  constructor
  · simp [schedIter]
  · rfl

end SchedulerTheorems

section RecorderTheorems

/-- Helper: the ratchet update is the binary maximum. -/
theorem recordSlowest_eq_max (a d : Nat) : recordSlowest a d = max a d := by
  unfold recordSlowest
  rw [Nat.max_def]
  split <;> split <;> omega

/-- Helper: one ticking iteration ratchets the maximum. -/
theorem schedIter_slowest_some (o : UnitObs) (now : Nat) (s : SchedState) :
    (schedIter (some o) now s).stats.slowestTick =
      max s.stats.slowestTick o.timeOfTick := by
  simp [schedIter, recordSlowest_eq_max]

/-- Helper: an idle iteration leaves the maximum untouched. -/
theorem schedIter_slowest_none (now : Nat) (s : SchedState) :
    (schedIter none now s).stats.slowestTick = s.stats.slowestTick := by
  simp [schedIter]

/-- Helper: a trace input with no unit contributes no sample. -/
theorem tickSamples_cons_none (x : Option UnitObs × Nat)
    (xs : List (Option UnitObs × Nat)) (h : x.1 = none) :
    tickSamples (x :: xs) = tickSamples xs := by
  simp [tickSamples, List.filterMap_cons, h]

/-- Helper: a trace input with a unit contributes its tick duration. -/
theorem tickSamples_cons_some (x : Option UnitObs × Nat)
    (xs : List (Option UnitObs × Nat)) (o : UnitObs) (h : x.1 = some o) :
    tickSamples (x :: xs) = o.timeOfTick :: tickSamples xs := by
  simp [tickSamples, List.filterMap_cons, h]

/-- Helper: the maximum after a trace is the fold of `max` over the
recorded samples. -/
theorem runLoop_slowest (inputs : List (Option UnitObs × Nat)) (s : SchedState) :
    (runLoop inputs s).stats.slowestTick =
      (tickSamples inputs).foldl max s.stats.slowestTick := by
  induction inputs generalizing s with
  | nil => rfl
  | cons x xs ih =>
    have hx : runLoop (x :: xs) s = runLoop xs (schedIter x.1 x.2 s) := rfl
    rw [hx, ih]
    cases h : x.1 with
    | none =>
      rw [tickSamples_cons_none x xs h, schedIter_slowest_none]
    | some o =>
      rw [tickSamples_cons_some x xs o h, schedIter_slowest_some, List.foldl_cons]

/-- Helper: the fold of `max` dominates its start. -/
theorem le_foldl_max (l : List Nat) (a : Nat) : a ≤ l.foldl max a := by
  induction l generalizing a with
  | nil => exact Nat.le_refl a
  | cons x xs ih => exact Nat.le_trans (Nat.le_max_left a x) (ih (max a x))

/-- Helper: the fold of `max` dominates every member. -/
theorem mem_le_foldl_max : ∀ (l : List Nat) (a d : Nat), d ∈ l → d ≤ l.foldl max a := by
  intro l
  induction l with
  | nil =>
    intro a d hd
    cases hd
  | cons x xs ih =>
    intro a d hd
    rcases List.mem_cons.mp hd with h | h
    · subst h
      exact Nat.le_trans (Nat.le_max_right a d) (le_foldl_max xs (max a d))
    · exact ih (max a x) d h

/-- Helper: the fold of `max` is its start or a member. -/
theorem foldl_max_eq_or_mem (l : List Nat) (a : Nat) :
    l.foldl max a = a ∨ l.foldl max a ∈ l := by
  induction l generalizing a with
  | nil => exact Or.inl rfl
  | cons x xs ih =>
    rcases ih (max a x) with h | h
    · rcases Nat.le_total x a with hxa | hax
      · left
        simpa [Nat.max_eq_left hxa] using h
      · right
        simp only [List.foldl_cons]
        rw [h, Nat.max_eq_right hax]
        exact List.mem_cons_self x xs
    · right
      simp only [List.foldl_cons]
      exact List.mem_cons_of_mem x h

/-- Helper: over a nonempty sample list, the fold of `max` from 0 is
attained by some member. -/
theorem foldl_max_zero_mem (l : List Nat) (h : l ≠ []) : l.foldl max 0 ∈ l := by
  rcases foldl_max_eq_or_mem l 0 with h0 | hm
  · obtain ⟨x, xs, rfl⟩ := List.exists_cons_of_ne_nil h
    have hx : x ≤ List.foldl max 0 (x :: xs) :=
      mem_le_foldl_max (x :: xs) 0 x (List.mem_cons_self x xs)
    rw [h0] at hx
    have hx0 : x = 0 := Nat.le_zero.mp hx
    rw [h0, ← hx0]
    exact List.mem_cons_self x xs
  · exact hm

/-- **C6.** Starting from a freshly reset recorder, after any trace of
scheduler iterations the recorded maximum dominates every tick sample
of the trace and is itself one of the samples (or 0 when there were
none): it equals the true maximum of the recorded sequence. Moreover a
single iteration never decreases the recorded maximum, so between
resets it is monotonically non-decreasing. -/
theorem slowest_tick_is_true_maximum (inputs : List (Option UnitObs × Nat))
    (s : SchedState) :
    (∀ d ∈ tickSamples inputs,
        d ≤ (runLoop inputs
              { s with stats := loadResetStats s.stats }).stats.slowestTick) ∧
    (tickSamples inputs ≠ [] →
        (runLoop inputs
          { s with stats := loadResetStats s.stats }).stats.slowestTick ∈
          tickSamples inputs) ∧
    (tickSamples inputs = [] →
        (runLoop inputs
          { s with stats := loadResetStats s.stats }).stats.slowestTick = 0) ∧
    (∀ slot now s2, s2.stats.slowestTick ≤
        (schedIter slot now s2).stats.slowestTick) := by
  refine ⟨?_, ?_, ?_, ?_⟩
  · intro d hd
    rw [runLoop_slowest]
    exact mem_le_foldl_max _ _ _ hd
  · intro h
    rw [runLoop_slowest]
    exact foldl_max_zero_mem _ h
  · intro h
    rw [runLoop_slowest, h]
    rfl
  · intro slot now s2
    cases slot with
    | none =>
      rw [schedIter_slowest_none]
    | some o =>
      rw [schedIter_slowest_some]
      exact Nat.le_max_left _ _

/-- Witness for C6 at a concrete trace: its recorded maximum is one of
its samples. -/
theorem slowest_tick_is_true_maximum_witness :
    (runLoop demoInputs
      { demoSched with stats := loadResetStats demoSched.stats }).stats.slowestTick ∈
      tickSamples demoInputs :=
  (slowest_tick_is_true_maximum demoInputs demoSched).2.1 (by decide)

/-- **C5, counterexample.** The claim says the reset that zeroes all
three statistics is triggered on explicit user request; but the two
user-facing reset actions each clear only their own statistic: at a
state with all three statistics nonzero, the Statistics-tab "Reset"
button leaves the histogram and the moving average untouched, and the
Performance-tab "Clear" button leaves the maximum and the moving
average untouched — neither user request performs the full reset, and
no user action resets the moving average at all. -/
theorem stats_reset_user_request_counterexample :
    slowestResetButton stats0 ≠ loadResetStats stats0 ∧
    (slowestResetButton stats0).tickTimes = [5] ∧
    (slowestResetButton stats0).avgTickSecs = 1 ∧
    histogramClearButton stats0 ≠ loadResetStats stats0 ∧
    (histogramClearButton stats0).slowestTick = 7 ∧
    (histogramClearButton stats0).avgTickSecs = 1 := by
  refine ⟨?_, rfl, rfl, ?_, rfl, rfl⟩
  · intro h
    have := congrArg Stats.tickTimes h
    simp [slowestResetButton, loadResetStats, stats0] at this
  · intro h
    have := congrArg Stats.slowestTick h
    simp [histogramClearButton, loadResetStats, stats0] at this

/-- **C5, amended.** The reset that zeroes all three statistics — the
histogram, the moving average and the running maximum — is performed
whenever a unit is (re)loaded (every `AppState::load` variant), and
immediately after it the mean is 0 and the histogram is empty. On
explicit user request the running maximum and the histogram can each be
reset individually; no user request resets the moving average. -/
theorem load_reset_zeroes_stats_user_resets_individual (env : LoadEnv)
    (load : Load) (a : AppState) (st : Stats) :
    (appLoad env load a).stats = loadResetStats a.stats ∧
    loadResetStats st = { slowestTick := 0, avgTickSecs := 0, tickTimes := [] } ∧
    histMean (loadResetStats st).tickTimes = 0 ∧
    (loadResetStats st).tickTimes = [] ∧
    (slowestResetButton st).slowestTick = 0 ∧
    (slowestResetButton st).avgTickSecs = st.avgTickSecs ∧
    (slowestResetButton st).tickTimes = st.tickTimes ∧
    (histogramClearButton st).tickTimes = [] ∧
    (histogramClearButton st).slowestTick = st.slowestTick ∧
    (histogramClearButton st).avgTickSecs = st.avgTickSecs := by
  refine ⟨rfl, rfl, ?_, rfl, rfl, rfl, rfl, rfl, rfl, rfl⟩
  simp [histMean, loadResetStats]

end RecorderTheorems

section HotSwapTheorems

/-- Helper: the bounded retry loop finds no index exactly when the lock
is unavailable at every attempt within the bound. -/
theorem tryLockTrace_none_iff (avail : Nat → Bool) :
    ∀ fuel i, (tryLockTrace avail fuel i).2 = none ↔
      ∀ j, i ≤ j → j < i + fuel → avail j = false := by
  intro fuel
  induction fuel with
  | zero =>
    intro i
    constructor
    · intro _ j h1 h2
      omega
    · intro _
      rfl
  | succ n ih =>
    intro i
    by_cases h : avail i
    · constructor
      · intro hn
        exact absurd hn (by simp [tryLockTrace, h])
      · intro hall
        exact absurd (hall i (Nat.le_refl i) (by omega)) (by simp [h])
    · have hstep : (tryLockTrace avail (n + 1) i).2 = (tryLockTrace avail n (i + 1)).2 := by
        simp [tryLockTrace, h]
      rw [hstep, ih (i + 1)]
      constructor
      · intro hall j h1 h2
        rcases Nat.eq_or_lt_of_le h1 with heq | hlt
        · subst heq
          simpa using h
        · exact hall j (by omega) (by omega)
      · intro hall j h1 h2
        exact hall j (by omega) (by omega)

/-- **C1.** During the replacement performed by `AppState::load`,
`interrupt()` is invoked on the currently installed unit if and only if
the unit's lock could not be acquired within the bounded retry loop of
100 attempts (with an empty slot nothing is interrupted); in
particular, for every unit whose lock is acquirable at some attempt
within that bound, the replacement never invokes `interrupt()`. -/
theorem replace_interrupts_iff_lock_unavailable (avail : Nat → Bool) :
    killInterrupts none = false ∧
    (killInterrupts (some avail) = true ↔ tryLockIdx avail = none) ∧
    (∀ k, k < 100 → avail k = true → killInterrupts (some avail) = false) := by
  refine ⟨rfl, ?_, ?_⟩
  · simp [killInterrupts, Option.isNone_iff_eq_none]
  · intro k hk ha
    have hne : tryLockIdx avail ≠ none := by
      intro hn
      have := (tryLockTrace_none_iff avail 100 0).mp hn k (Nat.zero_le k) (by omega)
      rw [ha] at this
      cases this
    cases hidx : tryLockIdx avail with
    | none => exact absurd hidx hne
    | some v => simp [killInterrupts, hidx]

/-- Witness for C1: a unit whose lock is free on the first attempt is
never interrupted by the replacement. -/
theorem replace_interrupts_iff_witness : killInterrupts (some freeUnit) = false :=
  (replace_interrupts_iff_lock_unavailable freeUnit).2.2 0 (by omega) rfl

/-- **C2, counterexample.** For a unit whose lock is never available,
the bounded retry loop fails and the replacement does send the
cooperative interrupt — but it then stores the new slot content
directly, without ever acquiring exclusive access to the old unit: no
lock acquisition occurs anywhere in the replacement trace, refuting the
claim that the controller "acquires exclusive access to it
unconditionally before the new unit is stored". -/
theorem interrupt_without_acquire_counterexample :
    tryLockIdx stuckUnit = none ∧
    REvent.interrupt ∈ replaceTrace (some stuckUnit) ∧
    REvent.lockAcquired ∉ replaceTrace (some stuckUnit) := by
  decide

/-- Helper: when the retry loop never succeeds, its trace is 100
failures. -/
theorem tryLockTrace_none_trace (avail : Nat → Bool) :
    ∀ fuel i, (tryLockTrace avail fuel i).2 = none →
      (tryLockTrace avail fuel i).1 = List.replicate fuel REvent.tryFail := by
  intro fuel
  induction fuel with
  | zero =>
    intro i _
    rfl
  | succ n ih =>
    intro i h
    by_cases ha : avail i
    · exact absurd h (by simp [tryLockTrace, ha])
    · have h2 : (tryLockTrace avail n (i + 1)).2 = none := by
        simpa [tryLockTrace, ha] using h
      simp [tryLockTrace, ha, ih (i + 1) h2, List.replicate_succ]

/-- **C2, amended.** If the bounded retry loop fails to obtain the
unit's lock, the controller sends a cooperative interrupt to the
currently installed unit and then stores the new unit (or none) into
the slot directly — the replacement trace is exactly 100 failed lock
attempts, the interrupt, and the store, with no further lock
acquisition before the store. -/
theorem interrupt_then_store_without_acquire (avail : Nat → Bool)
    (h : tryLockIdx avail = none) :
    replaceTrace (some avail) =
      List.replicate 100 REvent.tryFail ++ [REvent.interrupt, REvent.store] := by
  simp only [tryLockIdx] at h
  have h1 := tryLockTrace_none_trace avail 100 0 h
  simp [replaceTrace, killTrace, h, h1]

/-- Witness for the amended C2 at the concrete stuck unit. -/
theorem interrupt_then_store_witness :
    replaceTrace (some stuckUnit) =
      List.replicate 100 REvent.tryFail ++ [REvent.interrupt, REvent.store] :=
  interrupt_then_store_without_acquire stuckUnit (by decide)

end HotSwapTheorems

section SettingsTheorems

/-- Helper: with every CAS attempt failing, the loop never reaches its
`break`, at any unrolling depth. -/
theorem casAttempts_allfail_none :
    ∀ fuel i, casAttempts (fun _ => ([] : SMap)) (fun _ => false) "key" "value" fuel i
      = none := by
  intro fuel
  induction fuel with
  | zero =>
    intro i
    rfl
  | succ n ih =>
    intro i
    simpa [casAttempts] using ih (i + 1)

/-- **C4, counterexample.** No caller of the settings compare-and-swap
loop detects a unit-identity change: the loop body's only exit is a
successful CAS. In the execution the spec itself describes — the unit
replaced mid-retry, every CAS attempt failing against the stale
generation — `update(key, value)` does not terminate at any unrolling
depth. -/
theorem settings_update_livelock_counterexample :
    ¬ updateSettingTerminates (fun _ => []) (fun _ => false) "key" "value" := by
  rintro ⟨fuel, hsome⟩
  simp [updateSetting, casAttempts_allfail_none] at hsome

/-- Helper: the CAS loop exits within `fuel` iterations from attempt
`i` exactly when some attempt in that window succeeds. -/
theorem casAttempts_isSome_iff (maps : Nat → SMap) (cas : Nat → Bool)
    (key value : String) :
    ∀ fuel i, (casAttempts maps cas key value fuel i).isSome = true ↔
      ∃ j, i ≤ j ∧ j < i + fuel ∧ cas j = true := by
  intro fuel
  induction fuel with
  | zero =>
    intro i
    constructor
    · intro h
      exact absurd h (by simp [casAttempts])
    · rintro ⟨j, h1, h2, _⟩
      omega
  | succ n ih =>
    intro i
    by_cases h : cas i
    · constructor
      · intro _
        exact ⟨i, Nat.le_refl i, by omega, h⟩
      · intro _
        simp [casAttempts, h]
    · have hstep : casAttempts maps cas key value (n + 1) i
          = casAttempts maps cas key value n (i + 1) := by
        simp [casAttempts, h]
      rw [hstep, ih (i + 1)]
      constructor
      · rintro ⟨j, h1, h2, h3⟩
        exact ⟨j, by omega, by omega, h3⟩
      · rintro ⟨j, h1, h2, h3⟩
        have hne : j ≠ i := by
          intro hji
          subst hji
          simp [h3] at h
        exact ⟨j, by omega, by omega, h3⟩

/-- **C4, amended.** The callers of the settings compare-and-swap loop
perform no unit-identity check and no bounded abort: the loop
terminates exactly when some CAS attempt succeeds. In particular a
replacement of the unit mid-retry does not by itself make the loop
abort — if every CAS attempt fails the loop retries without bound, and
it terminates precisely in the executions where an attempt succeeds. -/
theorem settings_update_exits_only_on_cas (maps : Nat → SMap) (cas : Nat → Bool)
    (key value : String) :
    updateSettingTerminates maps cas key value ↔ ∃ k, cas k = true := by
  constructor
  · rintro ⟨fuel, h⟩
    obtain ⟨j, _, _, hj⟩ := (casAttempts_isSome_iff maps cas key value fuel 0).mp h
    exact ⟨j, hj⟩
  · rintro ⟨k, hk⟩
    exact ⟨k + 1,
      (casAttempts_isSome_iff maps cas key value (k + 1) 0).mpr
        ⟨k, Nat.zero_le k, by omega, hk⟩⟩

/-- Witness for the amended C4: with a succeeding CAS the loop exits. -/
theorem settings_update_exits_witness :
    updateSettingTerminates (fun _ => []) (fun _ => true) "key" "value" :=
  (settings_update_exits_only_on_cas (fun _ => []) (fun _ => true) "key" "value").mpr
    ⟨0, rfl⟩

end SettingsTheorems

section LoadTheorems

/-- **C9.** The settings map handed to `instantiate` by `AppState::load`
is `none` for a `File` load and the settings-map snapshot of the
currently installed (superseded) unit for `Reload` and `Restart`;
moreover `appLoad` consults the instantiate capability only at that
settings argument (pinning `instantiate` to it changes nothing), so the
replacement unit is instantiated with exactly that snapshot. -/
theorem load_settings_snapshot (env : LoadEnv) (a : AppState) (u : UnitM)
    (p : String) :
    settingsArg (Load.file p) a = none ∧
    (a.installed = some u →
      settingsArg Load.reload a = some u.settingsMap ∧
      settingsArg Load.restart a = some u.settingsMap) ∧
    (∀ load, appLoad env load a = appLoad (pinInstantiate env (settingsArg load a)) load a) := by
  refine ⟨rfl, fun h => ⟨?_, ?_⟩, fun load => rfl⟩
  · simp [settingsArg, h]
  · simp [settingsArg, h]

/-- Witness for C9 at a state with an installed unit: both reload and
restart pass its settings snapshot. -/
theorem load_settings_snapshot_witness :
    settingsArg Load.reload demoApp = some demoUnit.settingsMap ∧
    settingsArg Load.restart demoApp = some demoUnit.settingsMap :=
  (load_settings_snapshot demoEnv demoApp demoUnit "w").2.1 rfl

/-- Helper: a `File` load fully resets the debugger timer state. -/
theorem loadTimerEffect_file (p : String) (errs : List String) (succ : Bool)
    (t : DebuggerTimerState) :
    (loadTimerEffect (Load.file p) errs succ t).timer_state = TimerState.notRunning ∧
    (loadTimerEffect (Load.file p) errs succ t).split_index = 0 ∧
    (loadTimerEffect (Load.file p) errs succ t).game_time = 0 ∧
    (loadTimerEffect (Load.file p) errs succ t).game_time_state
      = GameTimeState.notInitialized ∧
    (loadTimerEffect (Load.file p) errs succ t).vars = [] := by
  cases succ <;>
    simp [loadTimerEffect, DebuggerTimerState.clear, DebuggerTimerState.reset]

/-- Helper: reload and restart keep the timer fields and clear only the
variables table. -/
theorem loadTimerEffect_reload_restart (load : Load) (errs : List String)
    (succ : Bool) (t : DebuggerTimerState)
    (hl : load = Load.reload ∨ load = Load.restart) :
    (loadTimerEffect load errs succ t).timer_state = t.timer_state ∧
    (loadTimerEffect load errs succ t).game_time = t.game_time ∧
    (loadTimerEffect load errs succ t).game_time_state = t.game_time_state ∧
    (loadTimerEffect load errs succ t).split_index = t.split_index ∧
    (loadTimerEffect load errs succ t).vars = [] := by
  rcases hl with rfl | rfl <;> cases succ <;> simp [loadTimerEffect]

/-- Helper: no load variant removes accumulated log lines. -/
theorem loadTimerEffect_logs_prefix (load : Load) (errs : List String)
    (succ : Bool) (t : DebuggerTimerState) :
    t.logs <+: (loadTimerEffect load errs succ t).logs := by
  cases load <;> cases succ <;>
    simp [loadTimerEffect, DebuggerTimerState.clear, DebuggerTimerState.reset,
      List.append_assoc]

/-- Helper: the timer component of `appLoad` is `loadTimerEffect` for
some error lines and success flag. -/
theorem appLoad_timer_shape (env : LoadEnv) (load : Load) (a : AppState) :
    ∃ errs succ, (appLoad env load a).timer = loadTimerEffect load errs succ a.timer :=
  ⟨_, _, rfl⟩

/-- **C10.** A `File` load fully resets the debugger timer state —
timer state to `NotRunning`, split index to 0, game time to zero,
game-time state to `NotInitialized`, variables cleared — before the
result is logged, whereas `Reload` and `Restart` clear only the
variables table and leave timer state, game time, game-time state and
split index unchanged; and for every load variant the previously
accumulated log lines are preserved as a prefix of the new log — no
load variant ever clears the log. -/
theorem file_load_resets_timer_reloads_keep_it (env : LoadEnv) (a : AppState)
    (p : String) :
    ((appLoad env (Load.file p) a).timer.timer_state = TimerState.notRunning ∧
     (appLoad env (Load.file p) a).timer.split_index = 0 ∧
     (appLoad env (Load.file p) a).timer.game_time = 0 ∧
     (appLoad env (Load.file p) a).timer.game_time_state
       = GameTimeState.notInitialized ∧
     (appLoad env (Load.file p) a).timer.vars = []) ∧
    ((appLoad env Load.reload a).timer.timer_state = a.timer.timer_state ∧
     (appLoad env Load.reload a).timer.game_time = a.timer.game_time ∧
     (appLoad env Load.reload a).timer.game_time_state = a.timer.game_time_state ∧
     (appLoad env Load.reload a).timer.split_index = a.timer.split_index ∧
     (appLoad env Load.reload a).timer.vars = []) ∧
    ((appLoad env Load.restart a).timer.timer_state = a.timer.timer_state ∧
     (appLoad env Load.restart a).timer.game_time = a.timer.game_time ∧
     (appLoad env Load.restart a).timer.game_time_state = a.timer.game_time_state ∧
     (appLoad env Load.restart a).timer.split_index = a.timer.split_index ∧
     (appLoad env Load.restart a).timer.vars = []) ∧
    (∀ load, a.timer.logs <+: (appLoad env load a).timer.logs) := by
  obtain ⟨e1, s1, h1⟩ := appLoad_timer_shape env (Load.file p) a
  obtain ⟨e2, s2, h2⟩ := appLoad_timer_shape env Load.reload a
  obtain ⟨e3, s3, h3⟩ := appLoad_timer_shape env Load.restart a
  refine ⟨?_, ?_, ?_, ?_⟩
  · rw [h1]
    exact loadTimerEffect_file p e1 s1 a.timer
  · rw [h2]
    exact loadTimerEffect_reload_restart Load.reload e2 s2 a.timer (Or.inl rfl)
  · rw [h3]
    exact loadTimerEffect_reload_restart Load.restart e3 s3 a.timer (Or.inr rfl)
  · intro load
    obtain ⟨e, s, h⟩ := appLoad_timer_shape env load a
    rw [h]
    exact loadTimerEffect_logs_prefix load e s a.timer

end LoadTheorems

end AsrDebugger
